import Mathlib

/-!
Verification of the fleet resolver service (src/services/fleetService.ts).

The service is a pure lookup-and-rank function over three static
eligibility matrices and a vehicle metadata catalog, plus an ETA
estimator and a reverse slug lookup.  JavaScript records are modelled
as association lists in source order (matching Object.keys insertion
order for non-index string keys); the JavaScript falsy-or operator
`x || d` is modelled by jsOrStr / jsOrNat (undefined, the empty string
and 0 are falsy; arrays are always truthy, so `arr || []` is only the
undefined check).
-/

namespace FleetService

/-- JavaScript `x || d` on an optional string: undefined and "" are falsy. -/
def jsOrStr (o : Option String) (d : String) : String :=
  match o with
  | none => d
  | some s => if s = "" then d else s

/-- JavaScript `x || d` on an optional number (here a Nat): undefined and 0 are falsy. -/
def jsOrNat (o : Option Nat) (d : Nat) : Nat :=
  match o with
  | none => d
  | some n => if n = 0 then d else n

/-- Badge literal type from the FleetVehicle interface. -/
inductive Badge where
  | RECOMMENDED
  | FASTER
  | CHEAPER
  deriving Repr, DecidableEq

/-- Category literal type from the FleetVehicle interface. -/
inductive Category where
  | recommended
  | faster
  | cheaper
  deriving Repr, DecidableEq

/-- The FleetVehicle output interface.  `capacity` is `number | string` in the
source, but every value the code produces is a string (metadata capacities and
the fallback "Standard" are all strings), so it is modelled as String. -/
structure FleetVehicle where
  id : String
  name : String
  description : String
  eta : String
  price : Nat
  originalPrice : Option Nat
  capacity : String
  badge : Option Badge
  icon : String
  category : Category
  deriving Repr, DecidableEq

/-- One entry of vehicleMetadata: `Partial<FleetVehicle>` restricted to the
fields the table actually carries, so every field is optional. -/
structure VehicleMeta where
  icon : Option String
  capacity : Option String
  description : Option String
  price : Option Nat
  originalPrice : Option Nat
  deriving Repr, DecidableEq

/-- The empty metadata record `{}` used when a vehicle name is absent. -/
def emptyMeta : VehicleMeta :=
  { icon := none, capacity := none, description := none
    price := none, originalPrice := none }

/-- truckMatrix, in source order. -/
def truckMatrix : List (String × List String) :=
  [ ("house-shifting", ["1 Ton Truck", "3 Ton Truck"])
  , ("farm-produce", ["Dropside Truck", "3 Ton Truck"])
  , ("construction-material", ["3 Ton Truck", "4 Ton Truck"])
  , ("building-sand", ["Tipper Truck", "4 Ton Truck"])
  , ("furniture", ["1 Ton Truck", "Enclosed Truck"])
  , ("bulk-goods", ["4 Ton Truck", "Dropside Truck"]) ]

/-- packageMatrix, in source order. -/
def packageMatrix : List (String × List String) :=
  [ ("0-5kg", ["Bicycle", "Motorbike", "Car"])
  , ("5-10kg", ["Motorbike", "Car"])
  , ("10-20kg", ["Car", "Small Van"])
  , ("20-50kg", ["Small Van", "Bakkie"]) ]

/-- towingMatrix, in source order. -/
def towingMatrix : List (String × List String) :=
  [ ("sedan", ["Flatbed Tow", "Standard Tow"])
  , ("suv", ["Heavy Duty Tow", "Flatbed Tow"])
  , ("bakkie", ["Heavy Duty Tow", "Flatbed Tow"])
  , ("small-truck", ["Industrial Tow", "Heavy Duty Tow"])
  , ("van", ["Flatbed Tow", "Heavy Duty Tow"]) ]

/-- vehicleMetadata, in source (insertion) order. -/
def vehicleMetadata : List (String × VehicleMeta) :=
  [ ("1 Ton Truck",
     { icon := some "🚚", capacity := some "1 Ton", description := some "Small moves"
       price := some 180, originalPrice := some 230 })
  , ("3 Ton Truck",
     { icon := some "🚛", capacity := some "3 Tons", description := some "Medium loads"
       price := some 280, originalPrice := some 350 })
  , ("4 Ton Truck",
     { icon := some "🚛", capacity := some "4 Tons", description := some "Heavy loads"
       price := some 380, originalPrice := some 480 })
  , ("Dropside Truck",
     { icon := some "🚚", capacity := some "2.5 Tons", description := some "Open sided"
       price := some 250, originalPrice := some 310 })
  , ("Tipper Truck",
     { icon := some "🚛", capacity := some "5 Tons", description := some "Tipping bed"
       price := some 420, originalPrice := some 520 })
  , ("Enclosed Truck",
     { icon := some "🚚", capacity := some "1.5 Tons", description := some "Protected cargo"
       price := some 220, originalPrice := some 280 })
  , ("Bicycle",
     { icon := some "🚴", capacity := some "5kg", description := some "Eco-friendly"
       price := some 25, originalPrice := some 35 })
  , ("Motorbike",
     { icon := some "🏍️", capacity := some "10kg", description := some "Fast delivery"
       price := some 40, originalPrice := some 55 })
  , ("Car",
     { icon := some "🚗", capacity := some "20kg", description := some "Standard delivery"
       price := some 60, originalPrice := some 80 })
  , ("Small Van",
     { icon := some "🚐", capacity := some "50kg", description := some "Larger packages"
       price := some 90, originalPrice := some 115 })
  , ("Bakkie",
     { icon := some "🛻", capacity := some "100kg", description := some "Heavy packages"
       price := some 120, originalPrice := some 150 })
  , ("Flatbed Tow",
     { icon := some "🚛", capacity := some "Standard", description := some "Most vehicles"
       price := some 350, originalPrice := some 450 })
  , ("Standard Tow",
     { icon := some "🚗", capacity := some "Light", description := some "Small cars"
       price := some 280, originalPrice := some 350 })
  , ("Heavy Duty Tow",
     { icon := some "🚛", capacity := some "Heavy", description := some "SUVs & Bakkies"
       price := some 450, originalPrice := some 570 })
  , ("Industrial Tow",
     { icon := some "🚛", capacity := some "Industrial", description := some "Large vehicles"
       price := some 600, originalPrice := some 750 }) ]

/-- `vehicleMetadata[name]` as an optional lookup. -/
def lookupMeta (name : String) : Option VehicleMeta :=
  (vehicleMetadata.find? (fun p => p.1 = name)).map Prod.snd

/-- The baseETAs table inside calculateETA, in source order. -/
def baseETAs : List (String × Nat) :=
  [ ("Bicycle", 15)
  , ("Motorbike", 5)
  , ("Car", 8)
  , ("Small Van", 12)
  , ("Bakkie", 15)
  , ("1 Ton Truck", 20)
  , ("3 Ton Truck", 25)
  , ("4 Ton Truck", 30)
  , ("Dropside Truck", 25)
  , ("Tipper Truck", 30)
  , ("Enclosed Truck", 20)
  , ("Flatbed Tow", 25)
  , ("Standard Tow", 20)
  , ("Heavy Duty Tow", 30)
  , ("Industrial Tow", 35) ]

/-- `baseETAs[name]` as an optional lookup. -/
def lookupBase (name : String) : Option Nat :=
  (baseETAs.find? (fun p => p.1 = name)).map Prod.snd

/-- calculateETA: `baseETAs[vehicleName] || 15`, then base + index * 3 rendered
with the " min" suffix. -/
def calculateETA (vehicleName : String) (index : Nat) : String :=
  let baseTime := jsOrNat (lookupBase vehicleName) 15
  toString (baseTime + index * 3) ++ " min"

/-- The minute value inside the string calculateETA renders. -/
def etaMinutes (vehicleName : String) (index : Nat) : Nat :=
  jsOrNat (lookupBase vehicleName) 15 + index * 3

/-- One pass of `name.toLowerCase().replace(/\s+/g, '-')`: the boolean records
whether the previous character was whitespace, so each maximal whitespace run
emits exactly one hyphen. -/
def collapseWsAux : Bool → List Char → List Char
  | _, [] => []
  | prevWs, c :: cs =>
    if c.isWhitespace then
      (if prevWs then ([] : List Char) else ['-']) ++ collapseWsAux true cs
    else c :: collapseWsAux false cs

/-- Replace every maximal whitespace run by a single hyphen (`/\s+/g → '-'`). -/
def collapseWs (s : String) : String :=
  String.mk (collapseWsAux false s.data)

/-- The identifier slug: `name.toLowerCase().replace(/\s+/g, '-')`. -/
def slug (name : String) : String :=
  collapseWs (String.mk (name.data.map Char.toLower))

/-- Service type union from the getFleetOptions signature. -/
inductive ServiceType where
  | ride
  | package
  | truck
  | towing
  deriving Repr, DecidableEq

/-- `matrix[extraOption || ""] || []` restricted to own properties: falsy
(absent or empty) option keys collapse to "", and a missed lookup falls back
to the empty list (a present empty array would be truthy, but none exists).
A real bracket read also reaches Object.prototype members before becoming
undefined; jsIndex below models that full semantics, which only differs on
unconfigured keys naming a prototype member. -/
def lookupMatrix (matrix : List (String × List String)) (extraOption : Option String) :
    List String :=
  let key := jsOrStr extraOption ""
  ((matrix.find? (fun p => p.1 = key)).map Prod.snd).getD []

/-- The if/else chain of getFleetOptions assigning category by rank. -/
def rankCategory (index : Nat) : Category :=
  if index = 0 then .recommended else if index = 1 then .cheaper else .faster

/-- The if/else chain of getFleetOptions assigning badge by rank. -/
def rankBadge (index : Nat) : Option Badge :=
  if index = 0 then some .RECOMMENDED else if index = 1 then some .CHEAPER else none

/-- Build one FleetVehicle from a vehicle name and its zero-based index,
mirroring the body of the map callback in getFleetOptions. -/
def mkOffer (vehicleName : String) (index : Nat) : FleetVehicle :=
  let metadata := (lookupMeta vehicleName).getD emptyMeta
  let category : Category := rankCategory index
  let badge : Option Badge := rankBadge index
  { id := slug vehicleName
    name := vehicleName
    description := jsOrStr metadata.description "Available now"
    eta := calculateETA vehicleName index
    price := jsOrNat metadata.price 100
    originalPrice := metadata.originalPrice
    capacity := jsOrStr metadata.capacity "Standard"
    badge := badge
    icon := jsOrStr metadata.icon "🚗"
    category := category }

/-- `vehicleNames.map((vehicleName, index) => ...)` with an explicit running
index, so the offer for the j-th name carries index i + j. -/
def buildFrom (i : Nat) : List String → List FleetVehicle
  | [] => []
  | n :: ns => mkOffer n i :: buildFrom (i + 1) ns

/-- The matrix the switch in getFleetOptions consults; the ride branch never
reaches the lookup, so it is the empty matrix. -/
def matrixFor : ServiceType → List (String × List String)
  | .truck => truckMatrix
  | .package => packageMatrix
  | .towing => towingMatrix
  | .ride => []

/-- The body of getFleetOptions after the switch has picked a matrix:
the empty-result check, then the decorating map. -/
def resolveOptions (matrix : List (String × List String)) (extraOption : Option String) :
    List FleetVehicle :=
  let vehicleNames := lookupMatrix matrix extraOption
  if vehicleNames.length = 0 then []
  else buildFrom 0 vehicleNames

/-- getFleetOptions.  The simulated 300 ms delay and the console.warn
diagnostic are effect-free with respect to the returned value and are
dropped; the ride branch returns before any lookup. -/
def getFleetOptions (serviceType : ServiceType) (extraOption : Option String) :
    List FleetVehicle :=
  match serviceType with
  | .ride => []
  | .truck => resolveOptions truckMatrix extraOption
  | .package => resolveOptions packageMatrix extraOption
  | .towing => resolveOptions towingMatrix extraOption

/-- getVehicleDisplayInfo: find the first catalog key whose slug matches the
identifier (Object.keys insertion order), else the placeholder. -/
def getVehicleDisplayInfo (vehicleId : String) : String × String :=
  match vehicleMetadata.find? (fun p => slug p.1 = vehicleId) with
  | some (vehicleName, metadata) => (vehicleName, jsOrStr metadata.icon "🚗")
  | none => ("Vehicle", "🚗")

/-- What a JavaScript bracket read on one of the matrix object literals can
yield: an own entry (a string array), a member inherited from
Object.prototype (a function or object, always truthy and without a `.map`
method), or undefined. -/
inductive JSPropValue where
  | ownList (names : List String)
  | inherited (lengthVal : Option Nat)
  | undefinedProp
  deriving Repr, DecidableEq

/-- The Object.prototype members visible through a bracket read on an object
literal, with the value each one's own `.length` property evaluates to
(function arity; `__proto__` yields Object.prototype, whose `.length` is
undefined). -/
def objectPrototypeMembers : List (String × Option Nat) :=
  [ ("constructor", some 1)
  , ("hasOwnProperty", some 1)
  , ("isPrototypeOf", some 1)
  , ("propertyIsEnumerable", some 1)
  , ("toLocaleString", some 0)
  , ("toString", some 0)
  , ("valueOf", some 0)
  , ("__defineGetter__", some 2)
  , ("__defineSetter__", some 2)
  , ("__lookupGetter__", some 1)
  , ("__lookupSetter__", some 1)
  , ("__proto__", none) ]

/-- The full ECMAScript semantics of `matrix[key]`: own properties first,
then the prototype chain (Object.prototype), then undefined. -/
def jsIndex (matrix : List (String × List String)) (key : String) : JSPropValue :=
  match (matrix.find? (fun p => p.1 = key)).map Prod.snd with
  | some names => .ownList names
  | none =>
    match (objectPrototypeMembers.find? (fun p => p.1 = key)).map Prod.snd with
    | some lengthVal => .inherited lengthVal
    | none => .undefinedProp

/-- The body of getFleetOptions with the bracket read modelled in full: an
inherited Object.prototype member is truthy, so `|| []` keeps it; then
`vehicleNames.length === 0` compares its `.length` (arity, or undefined for
`__proto__`) with 0, and if that guard does not fire, `vehicleNames.map`
throws a TypeError, modelled as Except.error. -/
def resolveOptionsJS (matrix : List (String × List String)) (extraOption : Option String) :
    Except String (List FleetVehicle) :=
  match jsIndex matrix (jsOrStr extraOption "") with
  | .ownList names =>
      if names.length = 0 then .ok [] else .ok (buildFrom 0 names)
  | .inherited lengthVal =>
      if lengthVal = some 0 then .ok []
      else .error "TypeError: vehicleNames.map is not a function"
  | .undefinedProp => .ok []

/-- getFleetOptions under the full bracket-read semantics.  It agrees with
getFleetOptions (as Except.ok) on every input whose lookup hits an own
matrix entry or nothing at all, and throws on unconfigured keys that name an
Object.prototype member whose `.length` is not 0. -/
def getFleetOptionsJS (serviceType : ServiceType) (extraOption : Option String) :
    Except String (List FleetVehicle) :=
  match serviceType with
  | .ride => .ok []
  | .truck => resolveOptionsJS truckMatrix extraOption
  | .package => resolveOptionsJS packageMatrix extraOption
  | .towing => resolveOptionsJS towingMatrix extraOption

/-- All vehicle names mentioned by any entry of any eligibility matrix. -/
def allMatrixNames : List String :=
  ((truckMatrix ++ packageMatrix ++ towingMatrix).map Prod.snd).flatten

/-- A vehicle name for which none of the four metadata fallbacks
(description, price, capacity, icon) can fire: the catalog lookup succeeds
and every field is present and truthy. -/
def metaDefaultsAvoided (name : String) : Bool :=
  match lookupMeta name with
  | none => false
  | some m =>
      (match m.description with | none => false | some s => decide (s ≠ "")) &&
      (match m.price with | none => false | some n => decide (n ≠ 0)) &&
      (match m.capacity with | none => false | some s => decide (s ≠ "")) &&
      (match m.icon with | none => false | some s => decide (s ≠ ""))

/-- A vehicle name for which the base-15 ETA fallback cannot fire: the
baseETAs lookup succeeds with a truthy value. -/
def etaDefaultAvoided (name : String) : Bool :=
  match lookupBase name with
  | none => false
  | some b => decide (b ≠ 0)

/-! ### Helper lemmas -/

theorem jsOrStr_some_emptyDefault (k : String) : jsOrStr (some k) "" = k := by
  by_cases h : k = "" <;> simp [jsOrStr, h]

theorem buildFrom_length (ns : List String) : ∀ i, (buildFrom i ns).length = ns.length := by
  induction ns with
  | nil => intro i; rfl
  | cons n ns ih => intro i; simp [buildFrom, ih]

theorem buildFrom_map_name (ns : List String) :
    ∀ i, (buildFrom i ns).map FleetVehicle.name = ns := by
  induction ns with
  | nil => intro i; rfl
  | cons n ns ih => intro i; simp [buildFrom, ih]; rfl

theorem buildFrom_get (ns : List String) :
    ∀ i j (h : j < (buildFrom i ns).length) (h2 : j < ns.length),
      (buildFrom i ns).get ⟨j, h⟩ = mkOffer (ns.get ⟨j, h2⟩) (i + j) := by
  induction ns with
  | nil => intro i j h h2; exact absurd h2 (by simp)
  | cons n ns ih =>
    intro i j h h2
    cases j with
    | zero => rfl
    | succ j =>
      have h3 : j < (buildFrom (i + 1) ns).length := by
        simpa [buildFrom] using h
      have h4 : j < ns.length := Nat.lt_of_succ_lt_succ h2
      have harith : i + 1 + j = i + (j + 1) := by omega
      calc (buildFrom i (n :: ns)).get ⟨j + 1, h⟩
          = (buildFrom (i + 1) ns).get ⟨j, h3⟩ := rfl
        _ = mkOffer (ns.get ⟨j, h4⟩) (i + 1 + j) := ih (i + 1) j h3 h4
        _ = mkOffer ((n :: ns).get ⟨j + 1, h2⟩) (i + (j + 1)) := by rw [harith]; rfl

theorem mkOffer_category (n : String) (i : Nat) :
    (mkOffer n i).category = rankCategory i := rfl

theorem mkOffer_badge (n : String) (i : Nat) :
    (mkOffer n i).badge = rankBadge i := rfl

theorem matrixFor_rows_nonempty :
    ∀ st : ServiceType, ∀ p ∈ matrixFor st, p.2 ≠ [] := by
  intro st
  cases st <;> decide

theorem resolveOptions_of_found (matrix : List (String × List String)) (key : String)
    (names : List String)
    (h : matrix.find? (fun p => p.1 = key) = some (key, names)) (hne : names ≠ []) :
    resolveOptions matrix (some key) = buildFrom 0 names := by
  have hlk : lookupMatrix matrix (some key) = names := by
    simp [lookupMatrix, jsOrStr_some_emptyDefault, h]
  simp [resolveOptions, hlk, List.length_eq_zero, hne]

theorem resolveOptions_cases (matrix : List (String × List String)) (k : Option String) :
    resolveOptions matrix k = [] ∨
      resolveOptions matrix k = buildFrom 0 (lookupMatrix matrix k) := by
  by_cases h0 : (lookupMatrix matrix k).length = 0
  · exact Or.inl (by simp [resolveOptions, h0])
  · exact Or.inr (by simp [resolveOptions, h0])

/-! ### Claim theorems -/

/-- Claim C1: for every (serviceType, subOptionKey) pair configured in the
corresponding eligibility matrix, getFleetOptions returns a non-empty list of
the same length as the matrix entry, and the offers' display names appear in
exactly the matrix entry's order. -/
theorem getFleetOptions_matches_matrix (st : ServiceType) (key : String)
    (names : List String)
    (h : (matrixFor st).find? (fun p => p.1 = key) = some (key, names)) :
    getFleetOptions st (some key) ≠ [] ∧
    (getFleetOptions st (some key)).length = names.length ∧
    (getFleetOptions st (some key)).map FleetVehicle.name = names := by
  have hne : names ≠ [] :=
    matrixFor_rows_nonempty st (key, names) (List.mem_of_find?_eq_some h)
  have hres : getFleetOptions st (some key) = buildFrom 0 names := by
    cases st with
    | ride => simp [matrixFor] at h
    | truck => exact resolveOptions_of_found truckMatrix key names h hne
    | package => exact resolveOptions_of_found packageMatrix key names h hne
    | towing => exact resolveOptions_of_found towingMatrix key names h hne
  refine ⟨?_, ?_, ?_⟩
  · rw [hres]
    cases names with
    | nil => exact absurd rfl hne
    | cons n ns => simp [buildFrom]
  · rw [hres, buildFrom_length]
  · rw [hres, buildFrom_map_name]

/-- Witness for C1 at (truck, "house-shifting"). -/
theorem getFleetOptions_matches_matrix_witness :
    (matrixFor .truck).find? (fun p => p.1 = "house-shifting") =
      some ("house-shifting", ["1 Ton Truck", "3 Ton Truck"]) ∧
    getFleetOptions .truck (some "house-shifting") ≠ [] ∧
    (getFleetOptions .truck (some "house-shifting")).length = 2 ∧
    (getFleetOptions .truck (some "house-shifting")).map FleetVehicle.name =
      ["1 Ton Truck", "3 Ton Truck"] :=
  ⟨by decide,
   (getFleetOptions_matches_matrix .truck "house-shifting"
     ["1 Ton Truck", "3 Ton Truck"] (by decide)).1,
   (getFleetOptions_matches_matrix .truck "house-shifting"
     ["1 Ton Truck", "3 Ton Truck"] (by decide)).2.1,
   (getFleetOptions_matches_matrix .truck "house-shifting"
     ["1 Ton Truck", "3 Ton Truck"] (by decide)).2.2⟩

/-- Claim C2: in every list getFleetOptions returns, the offer at index 0 has
category recommended and badge RECOMMENDED, the offer at index 1 has category
cheaper and badge CHEAPER, and every offer at index 2 or greater has category
faster and no badge. -/
theorem getFleetOptions_rank_rule (st : ServiceType) (k : Option String)
    (j : Nat) (h : j < (getFleetOptions st k).length) :
    ((getFleetOptions st k).get ⟨j, h⟩).category =
      (if j = 0 then Category.recommended
       else if j = 1 then Category.cheaper else Category.faster) ∧
    ((getFleetOptions st k).get ⟨j, h⟩).badge =
      (if j = 0 then some Badge.RECOMMENDED
       else if j = 1 then some Badge.CHEAPER else none) := by
  have hbuild : getFleetOptions st k = [] ∨
      ∃ ns, getFleetOptions st k = buildFrom 0 ns := by
    cases st with
    | ride => exact Or.inl rfl
    | truck =>
      exact (resolveOptions_cases truckMatrix k).elim Or.inl (fun he => Or.inr ⟨_, he⟩)
    | package =>
      exact (resolveOptions_cases packageMatrix k).elim Or.inl (fun he => Or.inr ⟨_, he⟩)
    | towing =>
      exact (resolveOptions_cases towingMatrix k).elim Or.inl (fun he => Or.inr ⟨_, he⟩)
  rcases hbuild with hemp | ⟨ns, hns⟩
  · rw [hemp] at h
    exact absurd h (by simp)
  · revert h
    rw [hns]
    intro h
    have h2 : j < ns.length := by
      rw [buildFrom_length] at h
      exact h
    rw [buildFrom_get ns 0 j h h2, Nat.zero_add, mkOffer_category, mkOffer_badge]
    unfold rankCategory rankBadge
    exact ⟨rfl, rfl⟩

/-- Witness for C2 at (package, "0-5kg"), index 2. -/
theorem getFleetOptions_rank_rule_witness :
    2 < (getFleetOptions .package (some "0-5kg")).length ∧
    ((getFleetOptions .package (some "0-5kg")).get ⟨2, by decide⟩).category =
      Category.faster ∧
    ((getFleetOptions .package (some "0-5kg")).get ⟨2, by decide⟩).badge = none := by
  have h := getFleetOptions_rank_rule .package (some "0-5kg") 2 (by decide)
  exact ⟨by decide, by simpa using h.1, by simpa using h.2⟩

theorem lookupBase_val_ne_zero (name : String) (b : Nat)
    (h : lookupBase name = some b) : b ≠ 0 := by
  have hall : ∀ q ∈ baseETAs, q.2 ≠ 0 := by decide
  unfold lookupBase at h
  cases hf : baseETAs.find? (fun p => p.1 = name) with
  | none => rw [hf] at h; simp at h
  | some p =>
    rw [hf] at h
    simp at h
    rw [← h]
    exact hall p (List.mem_of_find?_eq_some hf)

/-- Claim C3: the ETA estimator renders exactly base + index * 3 minutes,
taking the base from the fixed table when the name is present (the table
covers every catalog vehicle name) and 15 otherwise, so consecutive rank
positions of a fixed name differ by exactly 3 minutes. -/
theorem calculateETA_spec :
    (∀ name b i, lookupBase name = some b →
        calculateETA name i = toString (b + i * 3) ++ " min") ∧
    (∀ name i, lookupBase name = none →
        calculateETA name i = toString (15 + i * 3) ++ " min") ∧
    (∀ name ∈ vehicleMetadata.map Prod.fst, (lookupBase name).isSome = true) ∧
    (∀ name i, calculateETA name i = toString (etaMinutes name i) ++ " min" ∧
        etaMinutes name (i + 1) = etaMinutes name i + 3) := by
  refine ⟨?_, ?_, by decide, ?_⟩
  · intro name b i h
    have hb : b ≠ 0 := lookupBase_val_ne_zero name b h
    simp [calculateETA, jsOrNat, h, hb]
  · intro name i h
    simp [calculateETA, jsOrNat, h]
  · intro name i
    refine ⟨rfl, ?_⟩
    unfold etaMinutes
    ring

/-- Witness for C3: a table name ("Motorbike", base 5) and an absent name. -/
theorem calculateETA_spec_witness :
    (lookupBase "Motorbike" = some 5 ∧
      calculateETA "Motorbike" 1 = toString (5 + 1 * 3) ++ " min") ∧
    (lookupBase "Rickshaw" = none ∧
      calculateETA "Rickshaw" 2 = toString (15 + 2 * 3) ++ " min") ∧
    ("Bicycle" ∈ vehicleMetadata.map Prod.fst ∧ (lookupBase "Bicycle").isSome = true) :=
  ⟨⟨by decide, calculateETA_spec.1 "Motorbike" 5 1 (by decide)⟩,
   ⟨by decide, calculateETA_spec.2.1 "Rickshaw" 2 (by decide)⟩,
   ⟨by decide, calculateETA_spec.2.2.1 "Bicycle" (by decide)⟩⟩

/-- Claim C4: the two concrete scenarios.  getFleetOptions(truck,
house-shifting) is exactly the 1 Ton Truck offer (price 180, originalPrice
230, eta "20 min", badge RECOMMENDED) then the 3 Ton Truck offer (price 280,
originalPrice 350, eta "28 min", badge CHEAPER); getFleetOptions(package,
0-5kg) is exactly Bicycle, Motorbike, Car with etas "15 min", "8 min",
"14 min" and badges RECOMMENDED, CHEAPER, none. -/
theorem getFleetOptions_concrete_scenarios :
    getFleetOptions .truck (some "house-shifting") =
      [ { id := "1-ton-truck", name := "1 Ton Truck", description := "Small moves"
          eta := "20 min", price := 180, originalPrice := some 230, capacity := "1 Ton"
          badge := some .RECOMMENDED, icon := "🚚", category := .recommended }
      , { id := "3-ton-truck", name := "3 Ton Truck", description := "Medium loads"
          eta := "28 min", price := 280, originalPrice := some 350, capacity := "3 Tons"
          badge := some .CHEAPER, icon := "🚛", category := .cheaper } ] ∧
    getFleetOptions .package (some "0-5kg") =
      [ { id := "bicycle", name := "Bicycle", description := "Eco-friendly"
          eta := "15 min", price := 25, originalPrice := some 35, capacity := "5kg"
          badge := some .RECOMMENDED, icon := "🚴", category := .recommended }
      , { id := "motorbike", name := "Motorbike", description := "Fast delivery"
          eta := "8 min", price := 40, originalPrice := some 55, capacity := "10kg"
          badge := some .CHEAPER, icon := "🏍️", category := .cheaper }
      , { id := "car", name := "Car", description := "Standard delivery"
          eta := "14 min", price := 60, originalPrice := some 80, capacity := "20kg"
          badge := none, icon := "🚗", category := .faster } ] :=
  ⟨by decide, by decide⟩

/-- Claim C5: for the ride service type, getFleetOptions is empty for every
subOptionKey, including an absent one. -/
theorem getFleetOptions_ride_empty :
    ∀ k : Option String, getFleetOptions .ride k = [] := fun _ => rfl

/-- Claim C6 (code bug): under the full bracket-read semantics,
getFleetOptions throws on unconfigured keys that name an Object.prototype
member with nonzero (or undefined) arity: truckMatrix["constructor"] yields
the inherited Object constructor, which is truthy, has `.length` 1, and has
no `.map`, so the TypeError escapes and the promise rejects — the claimed
fail-soft contract ("never throws; unconfigured pairs give []") fails there,
while plain unknown keys and the ride branch do degrade to the empty list
(and a zero-arity member such as "toString" passes the length-0 guard and
accidentally returns the empty list as well). -/
theorem getFleetOptionsJS_prototype_key_throws :
    getFleetOptionsJS .truck (some "constructor") =
      .error "TypeError: vehicleNames.map is not a function" ∧
    getFleetOptionsJS .package (some "__proto__") =
      .error "TypeError: vehicleNames.map is not a function" ∧
    getFleetOptionsJS .towing (some "hasOwnProperty") =
      .error "TypeError: vehicleNames.map is not a function" ∧
    getFleetOptionsJS .truck (some "unknown-key") = .ok [] ∧
    getFleetOptionsJS .package (some "toString") = .ok [] ∧
    getFleetOptionsJS .ride (some "constructor") = .ok [] ∧
    getFleetOptionsJS .truck none = .ok [] :=
  ⟨rfl, rfl, rfl, rfl, rfl, rfl, rfl⟩

/-- Claim C7: reverse-lookup round trip.  Every catalog entry has an icon,
and getVehicleDisplayInfo on the slug of its display name returns exactly
that name with that icon; in particular slug "3 Ton Truck" = "3-ton-truck"
and the lookup of "3-ton-truck" yields ("3 Ton Truck", "🚛"). -/
theorem getVehicleDisplayInfo_round_trip :
    (∀ p ∈ vehicleMetadata,
        p.2.icon.isSome = true ∧
        getVehicleDisplayInfo (slug p.1) = (p.1, p.2.icon.getD "🚗")) ∧
    slug "3 Ton Truck" = "3-ton-truck" ∧
    getVehicleDisplayInfo "3-ton-truck" = ("3 Ton Truck", "🚛") :=
  ⟨by decide, by decide, by decide⟩

/-- Witness for C7 at the Bicycle catalog entry. -/
theorem getVehicleDisplayInfo_round_trip_witness :
    ("Bicycle",
      ({ icon := some "🚴", capacity := some "5kg", description := some "Eco-friendly"
         price := some 25, originalPrice := some 35 } : VehicleMeta)) ∈ vehicleMetadata ∧
    getVehicleDisplayInfo (slug "Bicycle") = ("Bicycle", "🚴") := by
  have h := getVehicleDisplayInfo_round_trip.1
    ("Bicycle",
      { icon := some "🚴", capacity := some "5kg", description := some "Eco-friendly"
        price := some 25, originalPrice := some 35 }) (by decide)
  exact ⟨by decide, by simpa using h.2⟩

/-- Claim C8: for every identifier no catalog display name slugs to,
getVehicleDisplayInfo returns the placeholder ("Vehicle", "🚗"). -/
theorem getVehicleDisplayInfo_unknown (vehicleId : String)
    (h : ∀ p ∈ vehicleMetadata, slug p.1 ≠ vehicleId) :
    getVehicleDisplayInfo vehicleId = ("Vehicle", "🚗") := by
  have hnone : vehicleMetadata.find? (fun p => slug p.1 = vehicleId) = none := by
    rw [List.find?_eq_none]
    intro p hp
    simpa using h p hp
  unfold getVehicleDisplayInfo
  rw [hnone]

/-- Witness for C8 at "unknown-id". -/
theorem getVehicleDisplayInfo_unknown_witness :
    (∀ p ∈ vehicleMetadata, slug p.1 ≠ "unknown-id") ∧
    getVehicleDisplayInfo "unknown-id" = ("Vehicle", "🚗") :=
  ⟨by decide, getVehicleDisplayInfo_unknown "unknown-id" (by decide)⟩

/-- Claim C9: the catalog display names are pairwise distinct and remain
pairwise distinct after slugging, so every generated offer identifier maps
back to at most one catalog entry. -/
theorem slug_nodup_on_catalog :
    (vehicleMetadata.map Prod.fst).Nodup ∧
    (vehicleMetadata.map (fun p => slug p.1)).Nodup :=
  ⟨by decide, by decide⟩

/-- Claim C10: every vehicle name in any eligibility-matrix entry is a key
of both the vehicle catalog and the base-ETA table, with all metadata fields
present and truthy, so no fallback default (description "Available now",
price 100, capacity "Standard", icon "🚗", ETA base 15) can fire for a
configured input. -/
theorem matrix_names_covered (name : String) (h : name ∈ allMatrixNames) :
    name ∈ vehicleMetadata.map Prod.fst ∧
    name ∈ baseETAs.map Prod.fst ∧
    metaDefaultsAvoided name = true ∧
    etaDefaultAvoided name = true := by
  have hall : ∀ n ∈ allMatrixNames,
      n ∈ vehicleMetadata.map Prod.fst ∧ n ∈ baseETAs.map Prod.fst ∧
      metaDefaultsAvoided n = true ∧ etaDefaultAvoided n = true := by decide
  exact hall name h

/-- Witness for C10 at "Bicycle". -/
theorem matrix_names_covered_witness :
    "Bicycle" ∈ allMatrixNames ∧
    "Bicycle" ∈ vehicleMetadata.map Prod.fst ∧
    "Bicycle" ∈ baseETAs.map Prod.fst ∧
    metaDefaultsAvoided "Bicycle" = true ∧
    etaDefaultAvoided "Bicycle" = true :=
  ⟨by decide, matrix_names_covered "Bicycle" (by decide)⟩

end FleetService
